import Mathlib

/-!
Verification of the Metrics Extraction & Credibility Scoring Engine of
`bitcoin-hype-analyser-thing`, as a shallow embedding of
`src/services/metrics.py` and `src/services/baseline.py`.

Modelling conventions:
* transcripts are `List Char`; Python's `pat in text` substring test is
  `occursIn`; `str.lower()` is an ASCII character-wise `Char.toLower`;
  the tokenizer regex `\b\w+\b` becomes "maximal runs of word characters"
  counted by `wordCount`.
* Python `float` arithmetic is modelled over `ℚ` (the spec states all
  formulas in exact decimal arithmetic); `round(x, 1)` / `round(x, 2)` /
  `round(x, 0)` become `round1` / `round2` / `round0` via Mathlib's `round`.
* Python's `re`-based prediction counting (`PREDICTION_PATTERNS`) is not
  replayed instruction-by-instruction: `extract_all_metrics` takes the
  total regex match count as a function parameter `predCount`, so every
  theorem below holds for an arbitrary matcher.  The `word_count == 0`
  guard and the normalisation around that count are translated faithfully.
-/

namespace HypeAnalyser

/-- Word characters of the tokenizer regex `\b\w+\b` (letters, digits, underscore). -/
def isWordChar (c : Char) : Bool := c.isAlphanum || c = '_'

/-- `str.lower()`, character-wise (ASCII range, which covers every lexicon term). -/
def toLowerStr (s : List Char) : List Char := s.map Char.toLower

/-- Does `pat` match at the very start of `s`? (helper for substring containment). -/
def headMatch : List Char → List Char → Bool
  | _, [] => true
  | [], _ :: _ => false
  | a :: s, b :: t => a == b && headMatch s t

/-- Python's `pat in s` for strings: `pat` occurs contiguously somewhere in `s`. -/
def occursIn (pat : List Char) : List Char → Bool
  | [] => pat.isEmpty
  | c :: s => headMatch (c :: s) pat || occursIn pat s

/-- Number of maximal word-character runs in `s`, continuing from state
`inWord` (= currently inside a word). Models `len(re.findall(r'\b\w+\b', s))`. -/
def countWordsFrom : List Char → Bool → Nat
  | [], _ => 0
  | c :: s, inWord =>
    if isWordChar c then (if inWord then 0 else 1) + countWordsFrom s true
    else countWordsFrom s false

/-- `word_count = len(re.findall(r'\b\w+\b', text_lower))`. -/
def wordCount (s : List Char) : Nat := countWordsFrom s false

/-- `MetricsExtractor.INTENSITY_WORDS` (set literal from the source). -/
def INTENSITY_WORDS : List String :=
  ["massive", "explosive", "crash", "moon", "guaranteed", "insane",
   "never", "always", "huge", "enormous", "catastrophic", "incredible",
   "unbelievable", "shocking", "extreme", "violent", "brutal", "devastating",
   "parabolic", "exponential", "rocket", "skyrocket", "plummet", "collapse"]

/-- `MetricsExtractor.HIGH_CERTAINTY`. -/
def HIGH_CERTAINTY : List String :=
  ["will", "guaranteed", "definitely", "certain", "surely", "absolutely",
   "without doubt", "no doubt", "100%", "must", "inevitable", "obviously"]

/-- `MetricsExtractor.HEDGE_WORDS`. -/
def HEDGE_WORDS : List String :=
  ["might", "could", "possibly", "perhaps", "maybe", "probably",
   "likely", "uncertain", "unclear", "potentially", "may", "seems",
   "appears", "suggests", "indicates", "could be", "might be"]

/-- `MetricsExtractor.TECHNICAL_TERMS`. -/
def TECHNICAL_TERMS : List String :=
  ["on-chain", "liquidity", "derivatives", "gamma", "basis", "arbitrage",
   "orderbook", "order book", "volatility", "correlation", "hedge",
   "futures", "perpetual", "funding rate", "open interest", "options",
   "delta", "implied volatility", "mark price", "index price",
   "liquidation", "leverage", "margin", "collateral", "defi", "tvl",
   "smart contract", "validator", "consensus", "hash rate", "difficulty",
   "mempool", "block", "transaction", "gas", "wei", "gwei", "slippage",
   "impermanent loss", "yield farming", "staking", "proof of stake",
   "proof of work", "eip", "fork", "halving", "difficulty adjustment"]

/-- `sum(1 for word in lexicon if word in text)`: number of distinct lexicon
terms occurring as substrings of `text`. -/
def lexiconHits (lex : List String) (text : List Char) : Nat :=
  (lex.filter (fun w => occursIn w.toList text)).length

/-- Executable floor of a rational (`⌊x⌋` stated computably, see `qfloor_eq_floor`). -/
def qfloor (x : ℚ) : ℤ := x.num / x.den

/-- Executable round-to-nearest (ties up); agrees with Mathlib's `round`
(`qround_eq_round`).  Python's `round` differs only on exact decimal ties,
which none of the verified statements exercise. -/
def qround (x : ℚ) : ℤ := qfloor (x + 1 / 2)

theorem qfloor_eq_floor (x : ℚ) : qfloor x = ⌊x⌋ := Rat.floor_def.symm

theorem qround_eq_round (x : ℚ) : qround x = round x := by
  rw [round_eq, qround, qfloor_eq_floor]

/-- Python `round(x, 1)` over exact arithmetic. -/
def round1 (x : ℚ) : ℚ := (qround (x * 10) : ℤ) / 10

/-- Python `round(x, 2)` over exact arithmetic. -/
def round2 (x : ℚ) : ℚ := (qround (x * 100) : ℤ) / 100

/-- Python `round(x, 0)` over exact arithmetic. -/
def round0 (x : ℚ) : ℚ := (qround x : ℤ)

/-- `MetricsExtractor._calculate_emotional_intensity(text, word_count)`. -/
def calculate_emotional_intensity (text : List Char) (word_count : Nat) : ℚ :=
  if word_count = 0 then 0
  else
    let intensity_count : ℚ := lexiconHits INTENSITY_WORDS text
    let per_1k := intensity_count / word_count * 1000
    min 100 (per_1k / 8 * 100)

/-- `MetricsExtractor._calculate_certainty_index(text)`. -/
def calculate_certainty_index (text : List Char) : ℚ :=
  let certainty_count := lexiconHits HIGH_CERTAINTY text
  let hedge_count := lexiconHits HEDGE_WORDS text
  if certainty_count + hedge_count = 0 then 50
  else ((certainty_count : ℚ) / (certainty_count + hedge_count)) * 100

/-- `MetricsExtractor._calculate_technical_depth(text, word_count)`. -/
def calculate_technical_depth (text : List Char) (word_count : Nat) : ℚ :=
  if word_count = 0 then 0
  else
    let term_count : ℚ := lexiconHits TECHNICAL_TERMS text
    let density := term_count / word_count * 1000
    min 100 (density / 10 * 50)

/-- `MetricsExtractor._calculate_prediction_density(text, word_count)`, with the
total regex match count over `PREDICTION_PATTERNS` abstracted as `predCount`. -/
def calculate_prediction_density (predCount : List Char → Nat)
    (text : List Char) (word_count : Nat) : ℚ :=
  if word_count = 0 then 0
  else
    let per_1k := (predCount text : ℚ) / word_count * 1000
    min 100 (per_1k / 5 * 100)

/-- The `metrics` sub-dictionary produced by `extract_all_metrics`. -/
structure MetricSet where
  emotional_intensity : ℚ
  certainty_index : ℚ
  technical_depth : ℚ
  prediction_density : ℚ
  word_count : Nat
deriving DecidableEq, Repr

/-- `MetricsExtractor.extract_all_metrics(transcript)`, restricted to the
`metrics` part of its return value (the evidence lists are not needed by the
properties below). `predCount` abstracts the regex match counter. -/
def extract_all_metrics (predCount : List Char → Nat) (transcript : List Char) :
    MetricSet :=
  let text_lower := toLowerStr transcript
  let word_count := wordCount text_lower
  { emotional_intensity := round1 (calculate_emotional_intensity text_lower word_count)
    certainty_index := round1 (calculate_certainty_index text_lower)
    technical_depth := round1 (calculate_technical_depth text_lower word_count)
    prediction_density := round1 (calculate_prediction_density predCount transcript word_count)
    word_count := word_count }

/-- The six boolean flags of `calculate_credibility_score`. -/
structure Flags where
  high_hype_low_accuracy : Bool
  overconfident : Bool
  technical_but_inaccurate : Bool
  hedges_appropriately : Bool
  extreme_prediction_volume : Bool
  calm_and_accurate : Bool

/-- Return value of `calculate_credibility_score`. -/
structure CredibilityResult where
  credibility_score : ℚ
  calibration_gap : ℚ
  calibration_penalty : ℚ
  flags : Flags

/-- `calculate_credibility_score(metrics, historical_accuracy)` from
`src/services/metrics.py`. -/
def calculate_credibility_score (metrics : MetricSet) (historical_accuracy : ℚ) :
    CredibilityResult :=
  let emotional := metrics.emotional_intensity
  let certainty := metrics.certainty_index
  let technical := metrics.technical_depth
  let pred_density := metrics.prediction_density
  let calibration_gap := certainty - historical_accuracy
  let calibration_penalty : ℚ :=
    if calibration_gap > 30 then 20
    else if calibration_gap > 15 then 10
    else 0
  let credibility_score :=
    historical_accuracy * 0.40 +
    (100 - emotional) * 0.25 +
    technical * 0.20 +
    (100 - |pred_density - 50|) * 0.15 -
    calibration_penalty
  let credibility_score := max 0 (min 100 credibility_score)
  { credibility_score := round1 credibility_score
    calibration_gap := round1 calibration_gap
    calibration_penalty := calibration_penalty
    flags :=
      { high_hype_low_accuracy := decide (emotional > 70) && decide (historical_accuracy < 50)
        overconfident := decide (calibration_gap > 30)
        technical_but_inaccurate := decide (technical > 60) && decide (historical_accuracy < 45)
        hedges_appropriately := decide (certainty < 40) && decide (historical_accuracy > 60)
        extreme_prediction_volume := decide (pred_density > 80)
        calm_and_accurate := decide (emotional < 40) && decide (historical_accuracy > 65) } }

/-- One entry of `BASELINE_INFLUENCERS` (its `metrics` dictionary). -/
structure InfluencerMetrics where
  emotional_intensity : ℚ
  certainty_index : ℚ
  technical_depth : ℚ
  prediction_density : ℚ
  historical_accuracy : ℚ

/-- `BASELINE_INFLUENCERS` from `src/services/baseline.py`, in insertion order
(benjamin_cowen, willy_woo, raoul_pal). -/
def BASELINE_INFLUENCERS : List InfluencerMetrics :=
  [{ emotional_intensity := 25.0, certainty_index := 35.0, technical_depth := 72.0,
     prediction_density := 42.0, historical_accuracy := 65.0 },
   { emotional_intensity := 45.0, certainty_index := 58.0, technical_depth := 85.0,
     prediction_density := 55.0, historical_accuracy := 58.0 },
   { emotional_intensity := 68.0, certainty_index := 72.0, technical_depth := 65.0,
     prediction_density := 70.0, historical_accuracy := 52.0 }]

/-- `sorted(values)[len(values)//2]`: the lower-middle element of the sorted
list (out-of-range indexing, which Python turns into an `IndexError` on an
empty cohort, is modelled by the default value 0). -/
def lowerMedian (values : List ℚ) : ℚ :=
  (List.insertionSort (fun a b => a ≤ b) values).getD (values.length / 2) 0

/-- Return value of `get_baseline_stats`. -/
structure BaselineStats where
  median_emotional_intensity : ℚ
  median_certainty_index : ℚ
  median_technical_depth : ℚ
  median_historical_accuracy : ℚ
  influencer_count : Nat

/-- `get_baseline_stats()`, parameterised by the cohort it reads
(`BASELINE_INFLUENCERS` in the source). -/
def get_baseline_stats (cohort : List InfluencerMetrics) : BaselineStats :=
  { median_emotional_intensity := lowerMedian (cohort.map (·.emotional_intensity))
    median_certainty_index := lowerMedian (cohort.map (·.certainty_index))
    median_technical_depth := lowerMedian (cohort.map (·.technical_depth))
    median_historical_accuracy := lowerMedian (cohort.map (·.historical_accuracy))
    influencer_count := cohort.length }

/-- Python `list.index(v)`: index of the first occurrence of `v`. -/
def listIndexOf (v : ℚ) (l : List ℚ) : Nat := l.findIdx (fun x => decide (x = v))

/-- Return value of `compare_to_baseline`. -/
structure BaselineComparison where
  hype_multiplier : ℚ
  certainty_deviation : ℚ
  technical_deviation : ℚ
  accuracy_percentile : ℚ
  calibration_percentile : ℚ
  baseline_stats : BaselineStats

/-- `compare_to_baseline(user_metrics, user_accuracy)` from
`src/services/baseline.py` (reads the fixed `BASELINE_INFLUENCERS` cohort). -/
def compare_to_baseline (user_metrics : MetricSet) (user_accuracy : ℚ) :
    BaselineComparison :=
  let baseline := get_baseline_stats BASELINE_INFLUENCERS
  let hype_multiplier :=
    user_metrics.emotional_intensity / max baseline.median_emotional_intensity 1
  let certainty_deviation :=
    user_metrics.certainty_index - baseline.median_certainty_index
  let technical_deviation :=
    user_metrics.technical_depth - baseline.median_technical_depth
  let accuracy_values :=
    (BASELINE_INFLUENCERS.map (·.historical_accuracy)) ++ [user_accuracy]
  let accuracy_sorted := List.insertionSort (fun a b => a ≤ b) accuracy_values
  let accuracy_rank : ℚ :=
    ((listIndexOf user_accuracy accuracy_sorted : ℚ) / accuracy_sorted.length) * 100
  let user_calibration_gap := user_metrics.certainty_index - user_accuracy
  let baseline_gaps :=
    (BASELINE_INFLUENCERS.map (fun inf => inf.certainty_index - inf.historical_accuracy))
      ++ [user_calibration_gap]
  let gaps_sorted := List.insertionSort (fun a b => a ≤ b) baseline_gaps
  let calibration_rank : ℚ :=
    ((listIndexOf user_calibration_gap gaps_sorted : ℚ) / gaps_sorted.length) * 100
  { hype_multiplier := round2 hype_multiplier
    certainty_deviation := round1 certainty_deviation
    technical_deviation := round1 technical_deviation
    accuracy_percentile := round0 accuracy_rank
    calibration_percentile := round0 calibration_rank
    baseline_stats := baseline }

example : wordCount (toLowerStr "hello world".toList) = 2 := by decide
example : occursIn "will".toList (toLowerStr "Willing".toList) = true := by decide
example : lexiconHits HIGH_CERTAINTY (toLowerStr "willing".toList) = 1 := by decide

/-- Characters of a pattern matched at the head of `s` are characters of `s`. -/
theorem mem_of_headMatch : ∀ (s pat : List Char), headMatch s pat = true →
    ∀ c ∈ pat, c ∈ s := by
  intro s pat
  induction pat generalizing s with
  | nil => intro _ c hc; exact absurd hc (List.not_mem_nil c)
  | cons b t ih =>
    intro h c hc
    cases s with
    | nil => simp [headMatch] at h
    | cons a s =>
      simp only [headMatch, Bool.and_eq_true, beq_iff_eq] at h
      rcases List.mem_cons.mp hc with hcb | hct
      · exact hcb ▸ h.1 ▸ List.mem_cons_self a s
      · exact List.mem_cons_of_mem a (ih s h.2 c hct)

/-- Characters of a substring are characters of the enclosing string. -/
theorem mem_of_occursIn : ∀ (pat s : List Char), occursIn pat s = true →
    ∀ c ∈ pat, c ∈ s := by
  intro pat s
  induction s with
  | nil =>
    intro h c hc
    simp only [occursIn, List.isEmpty_iff] at h
    exact absurd (h ▸ hc) (List.not_mem_nil c)
  | cons a s ih =>
    intro h c hc
    simp only [occursIn, Bool.or_eq_true] at h
    rcases h with h | h
    · exact mem_of_headMatch (a :: s) pat h c hc
    · exact List.mem_cons_of_mem a (ih h c hc)

/-- A string whose tokenization yields zero words has no word characters. -/
theorem no_wordChar_of_wordCount_eq_zero : ∀ (s : List Char), wordCount s = 0 →
    ∀ c ∈ s, isWordChar c = false := by
  intro s
  induction s with
  | nil => intro _ c hc; exact absurd hc (List.not_mem_nil c)
  | cons a s ih =>
    intro h c hc
    by_cases ha : isWordChar a
    · exfalso
      simp [wordCount, countWordsFrom, ha] at h
    · simp [wordCount, countWordsFrom, ha] at h
      rcases List.mem_cons.mp hc with hca | hcs
      · exact hca ▸ Bool.of_not_eq_true ha
      · exact ih h c hcs

/-- If every term of a lexicon contains a word character, a zero-word text
contains none of its terms. -/
theorem lexiconHits_eq_zero_of_wordCount_eq_zero (lex : List String)
    (hlex : ∀ w ∈ lex, w.toList.any isWordChar = true)
    (s : List Char) (h : wordCount s = 0) : lexiconHits lex s = 0 := by
  rw [lexiconHits, List.length_eq_zero]
  rw [List.filter_eq_nil_iff]
  intro w hw
  intro hocc
  rcases List.any_eq_true.mp (hlex w hw) with ⟨c, hcw, hcword⟩
  have hcs : c ∈ s := mem_of_occursIn w.toList s hocc c hcw
  rw [no_wordChar_of_wordCount_eq_zero s h c hcs] at hcword
  exact Bool.false_ne_true hcword
/-- `round1` fixes integers. -/
theorem round1_intCast (n : ℤ) : round1 (n : ℚ) = n := by
  have h : ((n : ℚ) * 10) = ((n * 10 : ℤ) : ℚ) := by push_cast; ring
  rw [round1, qround_eq_round, h, round_intCast]
  push_cast
  field_simp

/-- `round0` fixes integers. -/
theorem round0_intCast (n : ℤ) : round0 (n : ℚ) = n := by
  rw [round0, qround_eq_round, round_intCast]

theorem round1_zero : round1 0 = 0 := by
  have h := round1_intCast 0
  norm_num at h
  exact h

/-- `round1` preserves nonnegativity. -/
theorem round1_nonneg {x : ℚ} (h : 0 ≤ x) : 0 ≤ round1 x := by
  rw [round1, qround_eq_round, round_eq]
  have hz : (0 : ℤ) ≤ ⌊x * 10 + 1 / 2⌋ := Int.le_floor.mpr (by push_cast; linarith)
  have hq : (0 : ℚ) ≤ (⌊x * 10 + 1 / 2⌋ : ℚ) := by exact_mod_cast hz
  linarith

/-- `round1` preserves the upper bound 100. -/
theorem round1_le_100 {x : ℚ} (h : x ≤ 100) : round1 x ≤ 100 := by
  rw [round1, qround_eq_round, round_eq]
  have hfl : ⌊x * 10 + 1 / 2⌋ ≤ ⌊(2001 / 2 : ℚ)⌋ := Int.floor_mono (by linarith)
  have h2 : ⌊(2001 / 2 : ℚ)⌋ = 1000 := by
    rw [Int.floor_eq_iff]
    constructor <;> norm_num
  rw [h2] at hfl
  have hq : (⌊x * 10 + 1 / 2⌋ : ℚ) ≤ 1000 := by exact_mod_cast hfl
  linarith

/-- Every high-certainty lexicon term contains a word character. -/
theorem HIGH_CERTAINTY_has_wordChar :
    ∀ w ∈ HIGH_CERTAINTY, w.toList.any isWordChar = true := by decide

/-- Every hedge lexicon term contains a word character. -/
theorem HEDGE_WORDS_has_wordChar :
    ∀ w ∈ HEDGE_WORDS, w.toList.any isWordChar = true := by decide

/-- The returned `calibration_penalty`, unfolded. -/
theorem calibration_penalty_eq (m : MetricSet) (acc : ℚ) :
    (calculate_credibility_score m acc).calibration_penalty =
      if m.certainty_index - acc > 30 then 20
      else if m.certainty_index - acc > 15 then 10
      else 0 := rfl

/-- The returned `calibration_gap`, unfolded. -/
theorem calibration_gap_eq (m : MetricSet) (acc : ℚ) :
    (calculate_credibility_score m acc).calibration_gap =
      round1 (m.certainty_index - acc) := rfl


/-- C1 (counterexample): the empty transcript tokenizes to zero words, yet
`extract_all_metrics` returns `certainty_index = 50.0`, not `0.0` — the
claim "all four sub-scores are exactly 0.0" is false for the certainty index. -/
theorem claim_C1_cex :
    wordCount (toLowerStr []) = 0 ∧
    (extract_all_metrics (fun _ => 0) []).certainty_index ≠ 0 := by
  have h1 : lexiconHits HIGH_CERTAINTY (toLowerStr []) = 0 := by decide
  have h2 : lexiconHits HEDGE_WORDS (toLowerStr []) = 0 := by decide
  have h50 : round1 (50 : ℚ) = 50 := by
    have h := round1_intCast 50; norm_num at h; exact h
  refine ⟨by decide, ?_⟩
  simp [extract_all_metrics, calculate_certainty_index, h1, h2, h50]

/-- C1 (amended): for every transcript whose tokenization yields
`word_count = 0`, `extract_all_metrics` returns `emotional_intensity`,
`technical_depth` and `prediction_density` exactly `0.0`, and
`certainty_index` exactly the neutral default `50.0` (and does not raise —
the extractor is a total function). -/
theorem claim_C1 (predCount : List Char → Nat) (t : List Char)
    (h : wordCount (toLowerStr t) = 0) :
    (extract_all_metrics predCount t).emotional_intensity = 0 ∧
    (extract_all_metrics predCount t).technical_depth = 0 ∧
    (extract_all_metrics predCount t).prediction_density = 0 ∧
    (extract_all_metrics predCount t).certainty_index = 50 ∧
    (extract_all_metrics predCount t).word_count = 0 := by
  have hC := lexiconHits_eq_zero_of_wordCount_eq_zero HIGH_CERTAINTY
    HIGH_CERTAINTY_has_wordChar (toLowerStr t) h
  have hH := lexiconHits_eq_zero_of_wordCount_eq_zero HEDGE_WORDS
    HEDGE_WORDS_has_wordChar (toLowerStr t) h
  have h50 : round1 (50 : ℚ) = 50 := by
    have h' := round1_intCast 50; norm_num at h'; exact h'
  refine ⟨?_, ?_, ?_, ?_, ?_⟩ <;>
    simp [extract_all_metrics, calculate_emotional_intensity, calculate_technical_depth,
      calculate_prediction_density, calculate_certainty_index, h, hC, hH, h50, round1_zero]

theorem claim_C1_witness :
    wordCount (toLowerStr []) = 0 ∧
    (extract_all_metrics (fun _ => 0) []).certainty_index = 50 :=
  ⟨by decide, (claim_C1 (fun _ => 0) [] (by decide)).2.2.2.1⟩

/-- C2 (counterexample): a calibration gap of exactly 30.0 receives penalty 10,
not 0 as the claim states (`30.0 > 30` is false but `30.0 > 15` is true). -/
theorem claim_C2_cex :
    (calculate_credibility_score
        { emotional_intensity := 0, certainty_index := 30, technical_depth := 0,
          prediction_density := 0, word_count := 0 } 0).calibration_penalty = 10 ∧
    ((calculate_credibility_score
        { emotional_intensity := 0, certainty_index := 30, technical_depth := 0,
          prediction_density := 0, word_count := 0 } 0).calibration_penalty ≠ 0) := by
  rw [calibration_penalty_eq]
  norm_num

/-- C2 (amended): `calibration_penalty` is a pure step function of
`calibration_gap` with these boundary values: gap 30.0 → penalty 10;
gap 30.01 → penalty 20; gap 15.0 → penalty 0; gap 15.01 → penalty 10. -/
theorem claim_C2 :
    (∀ (m₁ m₂ : MetricSet) (a₁ a₂ : ℚ),
      m₁.certainty_index - a₁ = m₂.certainty_index - a₂ →
      (calculate_credibility_score m₁ a₁).calibration_penalty =
        (calculate_credibility_score m₂ a₂).calibration_penalty) ∧
    (calculate_credibility_score
        { emotional_intensity := 0, certainty_index := 30, technical_depth := 0,
          prediction_density := 0, word_count := 0 } 0).calibration_penalty = 10 ∧
    (calculate_credibility_score
        { emotional_intensity := 0, certainty_index := 30.01, technical_depth := 0,
          prediction_density := 0, word_count := 0 } 0).calibration_penalty = 20 ∧
    (calculate_credibility_score
        { emotional_intensity := 0, certainty_index := 15, technical_depth := 0,
          prediction_density := 0, word_count := 0 } 0).calibration_penalty = 0 ∧
    (calculate_credibility_score
        { emotional_intensity := 0, certainty_index := 15.01, technical_depth := 0,
          prediction_density := 0, word_count := 0 } 0).calibration_penalty = 10 := by
  refine ⟨?_, ?_, ?_, ?_, ?_⟩
  · intro m₁ m₂ a₁ a₂ hgap
    rw [calibration_penalty_eq, calibration_penalty_eq, hgap]
  all_goals rw [calibration_penalty_eq]; norm_num

theorem claim_C2_witness :
    (calculate_credibility_score
        { emotional_intensity := 0, certainty_index := 40, technical_depth := 0,
          prediction_density := 0, word_count := 0 } 10).calibration_penalty =
      (calculate_credibility_score
        { emotional_intensity := 0, certainty_index := 30, technical_depth := 0,
          prediction_density := 0, word_count := 0 } 0).calibration_penalty :=
  claim_C2.1 _ _ _ _ (by norm_num)

/-- C3: the credibility score is the weighted formula
`0.40*accuracy + 0.25*(100 - emotional) + 0.20*technical +
0.15*(100 - |pred_density - 50|) - calibration_penalty` clamped into
[0,100] (then rounded to one decimal at the boundary), and the returned
score always lies in [0,100]. -/
theorem claim_C3 (m : MetricSet) (acc : ℚ) :
    (calculate_credibility_score m acc).credibility_score =
      round1 (max 0 (min 100
        (0.40 * acc + 0.25 * (100 - m.emotional_intensity) +
          0.20 * m.technical_depth + 0.15 * (100 - |m.prediction_density - 50|) -
          (calculate_credibility_score m acc).calibration_penalty))) ∧
    0 ≤ (calculate_credibility_score m acc).credibility_score ∧
    (calculate_credibility_score m acc).credibility_score ≤ 100 := by
  have hfield : (calculate_credibility_score m acc).credibility_score =
      round1 (max 0 (min 100
        (acc * 0.40 + (100 - m.emotional_intensity) * 0.25 +
          m.technical_depth * 0.20 + (100 - |m.prediction_density - 50|) * 0.15 -
          (calculate_credibility_score m acc).calibration_penalty))) := rfl
  have harg : acc * 0.40 + (100 - m.emotional_intensity) * 0.25 +
      m.technical_depth * 0.20 + (100 - |m.prediction_density - 50|) * 0.15 -
      (calculate_credibility_score m acc).calibration_penalty =
      0.40 * acc + 0.25 * (100 - m.emotional_intensity) +
      0.20 * m.technical_depth + 0.15 * (100 - |m.prediction_density - 50|) -
      (calculate_credibility_score m acc).calibration_penalty := by ring
  rw [hfield, harg]
  refine ⟨rfl, round1_nonneg (le_max_left _ _),
    round1_le_100 (max_le (by norm_num) (min_le_left _ _))⟩

/-- C4: `calibration_gap = certainty_index - historical_accuracy`, and the
penalty is 20 for gap > 30, else 10 for gap > 15, else 0, the three cases
mutually exclusive in that order; in particular a gap of exactly 30 falls in
the middle case (penalty 10) and a gap of exactly 15 in the last (penalty 0). -/
theorem claim_C4 (m : MetricSet) (acc : ℚ) :
    (calculate_credibility_score m acc).calibration_gap =
      round1 (m.certainty_index - acc) ∧
    (m.certainty_index - acc > 30 →
      (calculate_credibility_score m acc).calibration_penalty = 20) ∧
    (m.certainty_index - acc ≤ 30 → m.certainty_index - acc > 15 →
      (calculate_credibility_score m acc).calibration_penalty = 10) ∧
    (m.certainty_index - acc ≤ 15 →
      (calculate_credibility_score m acc).calibration_penalty = 0) := by
  refine ⟨calibration_gap_eq m acc, ?_, ?_, ?_⟩
  · intro h
    rw [calibration_penalty_eq, if_pos h]
  · intro h30 h15
    rw [calibration_penalty_eq, if_neg (not_lt.mpr h30), if_pos h15]
  · intro h15
    rw [calibration_penalty_eq, if_neg (not_lt.mpr (h15.trans (by norm_num))),
      if_neg (not_lt.mpr h15)]

theorem claim_C4_witness :
    (30 : ℚ) - 0 ≤ 30 ∧ (30 : ℚ) - 0 > 15 ∧ (15 : ℚ) - 0 ≤ 15 ∧
    (calculate_credibility_score
        { emotional_intensity := 0, certainty_index := 30, technical_depth := 0,
          prediction_density := 0, word_count := 0 } 0).calibration_penalty = 10 ∧
    (calculate_credibility_score
        { emotional_intensity := 0, certainty_index := 15, technical_depth := 0,
          prediction_density := 0, word_count := 0 } 0).calibration_penalty = 0 :=
  ⟨by norm_num, by norm_num, by norm_num,
    (claim_C4 _ 0).2.2.1 (by norm_num) (by norm_num),
    (claim_C4 _ 0).2.2.2 (by norm_num)⟩

/-- C5: the certainty index counts the distinct high-certainty terms present
(`c`) and the distinct hedge terms present (`h`); if `c+h = 0` it returns
exactly the neutral 50.0, otherwise `c/(c+h)*100`. -/
theorem claim_C5 (text : List Char) :
    (lexiconHits HIGH_CERTAINTY text + lexiconHits HEDGE_WORDS text = 0 →
      calculate_certainty_index text = 50) ∧
    (lexiconHits HIGH_CERTAINTY text + lexiconHits HEDGE_WORDS text ≠ 0 →
      calculate_certainty_index text =
        (lexiconHits HIGH_CERTAINTY text : ℚ) /
          ((lexiconHits HIGH_CERTAINTY text : ℚ) + (lexiconHits HEDGE_WORDS text : ℚ)) *
          100) := by
  constructor
  · intro h
    unfold calculate_certainty_index
    rw [if_pos h]
  · intro h
    unfold calculate_certainty_index
    rw [if_neg h]

theorem claim_C5_witness :
    lexiconHits HIGH_CERTAINTY "hello there".toList +
      lexiconHits HEDGE_WORDS "hello there".toList = 0 ∧
    calculate_certainty_index "hello there".toList = 50 :=
  ⟨by decide, (claim_C5 "hello there".toList).1 (by decide)⟩

/-- C6: for `word_count > 0`, emotional intensity is the number of distinct
intensity-lexicon terms occurring as substrings of the lowercased text,
normalised as `hits/word_count*1000`, divided by the calibration constant 8.0,
times 100, clamped to at most 100, rounded to one decimal at the extractor
boundary; for `word_count = 0` it is 0. -/
theorem claim_C6 (predCount : List Char → Nat) (t : List Char) :
    (wordCount (toLowerStr t) ≠ 0 →
      (extract_all_metrics predCount t).emotional_intensity =
        round1 (min 100 ((lexiconHits INTENSITY_WORDS (toLowerStr t) : ℚ) /
          (wordCount (toLowerStr t) : ℚ) * 1000 / 8 * 100))) ∧
    (wordCount (toLowerStr t) = 0 →
      (extract_all_metrics predCount t).emotional_intensity = 0) := by
  constructor
  · intro h
    simp [extract_all_metrics, calculate_emotional_intensity, h]
  · intro h
    simp [extract_all_metrics, calculate_emotional_intensity, h, round1_zero]

theorem claim_C6_witness :
    wordCount (toLowerStr "crash".toList) ≠ 0 ∧
    (extract_all_metrics (fun _ => 0) "crash".toList).emotional_intensity =
      round1 (min 100 ((lexiconHits INTENSITY_WORDS (toLowerStr "crash".toList) : ℚ) /
        (wordCount (toLowerStr "crash".toList) : ℚ) * 1000 / 8 * 100)) :=
  ⟨by decide, (claim_C6 (fun _ => 0) "crash".toList).1 (by decide)⟩

/-- C9: `hype_multiplier` is `emotional_intensity / max(median_emotional_intensity, 1)`;
the divisor is at least 1 and never zero, for any metrics and any cohort the
baseline statistics are computed from. -/
theorem claim_C9 (m : MetricSet) (acc : ℚ) (cohort : List InfluencerMetrics) :
    (1 : ℚ) ≤ max (get_baseline_stats cohort).median_emotional_intensity 1 ∧
    max (get_baseline_stats cohort).median_emotional_intensity 1 ≠ 0 ∧
    (compare_to_baseline m acc).hype_multiplier =
      round2 (m.emotional_intensity /
        max (get_baseline_stats BASELINE_INFLUENCERS).median_emotional_intensity 1) :=
  ⟨le_max_right _ _,
    ne_of_gt (lt_of_lt_of_le one_pos (le_max_right _ _)),
    rfl⟩

/-- C10: lexicon detection is plain substring containment on the lowercased
text, not word-boundary matching: the single word "willing" contains the
high-certainty term "will" (and no hedge term), so its certainty index is
exactly 100.0; likewise "mooning" triggers the intensity term "moon" and
"the blockage" the technical term "block". -/
theorem claim_C10 :
    occursIn "will".toList (toLowerStr "willing".toList) = true ∧
    wordCount (toLowerStr "willing".toList) = 1 ∧
    lexiconHits HIGH_CERTAINTY (toLowerStr "willing".toList) = 1 ∧
    lexiconHits HEDGE_WORDS (toLowerStr "willing".toList) = 0 ∧
    lexiconHits INTENSITY_WORDS (toLowerStr "mooning".toList) = 1 ∧
    lexiconHits TECHNICAL_TERMS (toLowerStr "the blockage".toList) = 1 ∧
    (extract_all_metrics (fun _ => 0) "willing".toList).certainty_index = 100 := by
  have h1 : lexiconHits HIGH_CERTAINTY (toLowerStr "willing".toList) = 1 := by decide
  have h2 : lexiconHits HEDGE_WORDS (toLowerStr "willing".toList) = 0 := by decide
  have h100 : round1 (100 : ℚ) = 100 := by
    have h := round1_intCast 100; norm_num at h; exact h
  refine ⟨by decide, by decide, h1, h2, by decide, by decide, ?_⟩
  have hproj : (extract_all_metrics (fun _ => 0) "willing".toList).certainty_index =
      round1 (calculate_certainty_index (toLowerStr "willing".toList)) := rfl
  have hc : calculate_certainty_index (toLowerStr "willing".toList) = 100 := by
    simp only [calculate_certainty_index]
    rw [h1, h2]
    norm_num
  rw [hproj, hc, h100]

/-- C7: every cohort median in the baseline comparator is the element at
index `len//2` of the sorted value list (lower-middle element, no
interpolation for even sizes — witnessed by the 2-element instance), and for
the fixed 3-entry reference cohort the median emotional intensity is 45.0. -/
theorem claim_C7 :
    (∀ cohort : List InfluencerMetrics,
      (get_baseline_stats cohort).median_emotional_intensity =
        (List.insertionSort (fun a b => a ≤ b)
            (cohort.map (fun i => i.emotional_intensity))).getD
          ((cohort.map (fun i => i.emotional_intensity)).length / 2) 0 ∧
      (get_baseline_stats cohort).median_certainty_index =
        (List.insertionSort (fun a b => a ≤ b)
            (cohort.map (fun i => i.certainty_index))).getD
          ((cohort.map (fun i => i.certainty_index)).length / 2) 0 ∧
      (get_baseline_stats cohort).median_technical_depth =
        (List.insertionSort (fun a b => a ≤ b)
            (cohort.map (fun i => i.technical_depth))).getD
          ((cohort.map (fun i => i.technical_depth)).length / 2) 0 ∧
      (get_baseline_stats cohort).median_historical_accuracy =
        (List.insertionSort (fun a b => a ≤ b)
            (cohort.map (fun i => i.historical_accuracy))).getD
          ((cohort.map (fun i => i.historical_accuracy)).length / 2) 0) ∧
    lowerMedian [1, 3] = 3 ∧
    (get_baseline_stats BASELINE_INFLUENCERS).median_emotional_intensity = 45 := by
  refine ⟨fun cohort => ⟨rfl, rfl, rfl, rfl⟩, ?_, ?_⟩
  · norm_num [lowerMedian, List.insertionSort, List.orderedInsert]
  · norm_num [get_baseline_stats, BASELINE_INFLUENCERS, lowerMedian,
      List.insertionSort, List.orderedInsert]

/-- In an ascending-sorted list, the first index of a present value equals
the number of elements strictly below it (so `list.index(v)` after sorting
resolves ties to the lowest rank among equal values). -/
theorem sorted_findIdx_eq_countP (v : ℚ) :
    ∀ l : List ℚ, l.Sorted (fun a b => a ≤ b) → v ∈ l →
      l.findIdx (fun x => decide (x = v)) = l.countP (fun x => decide (x < v)) := by
  intro l
  induction l with
  | nil => intro _ hv; exact absurd hv (List.not_mem_nil v)
  | cons a t ih =>
    intro hs hv
    rw [List.sorted_cons] at hs
    rw [List.findIdx_cons, List.countP_cons]
    by_cases hav : a = v
    · have hzero : t.countP (fun x => decide (x < v)) = 0 := by
        rw [List.countP_eq_zero]
        intro b hb
        simp only [decide_eq_true_eq]
        exact not_lt.mpr (hav ▸ hs.1 b hb)
      simp [hav, hzero]
    · have hva : v ∈ t := by
        rcases List.mem_cons.mp hv with h | h
        · exact absurd h.symm hav
        · exact h
      have halt : a < v := lt_of_le_of_ne (hs.1 v hva) hav
      simp [hav, halt, ih hs.2 hva]

/-- C8: `accuracy_percentile` is `round0` of (first index of the subject's
accuracy in the sorted cohort-plus-subject accuracy list, divided by the new
list length, times 100); by sortedness the first index is the count of
strictly smaller values, so a subject tying cohort values gets the lowest
rank among the equal values — e.g. accuracy 58 (tying willy_woo) ranks 25. -/
theorem claim_C8 (m : MetricSet) (acc : ℚ) :
    (compare_to_baseline m acc).accuracy_percentile =
      round0 (((listIndexOf acc (List.insertionSort (fun a b => a ≤ b)
            ((BASELINE_INFLUENCERS.map (fun i => i.historical_accuracy)) ++ [acc])) : ℚ) /
          (((BASELINE_INFLUENCERS.map (fun i => i.historical_accuracy)) ++ [acc]).length : ℚ)) *
        100) ∧
    (compare_to_baseline m acc).accuracy_percentile =
      round0 ((((((BASELINE_INFLUENCERS.map (fun i => i.historical_accuracy)) ++
            [acc]).countP (fun x => decide (x < acc)) : ℕ) : ℚ) /
          (((BASELINE_INFLUENCERS.map (fun i => i.historical_accuracy)) ++ [acc]).length : ℚ)) *
        100) ∧
    (compare_to_baseline
        { emotional_intensity := 0, certainty_index := 0, technical_depth := 0,
          prediction_density := 0, word_count := 0 } 58).accuracy_percentile = 25 := by
  have hperm := List.perm_insertionSort (fun a b : ℚ => a ≤ b)
    ((BASELINE_INFLUENCERS.map (fun i => i.historical_accuracy)) ++ [acc])
  have hlen : (List.insertionSort (fun a b : ℚ => a ≤ b)
      ((BASELINE_INFLUENCERS.map (fun i => i.historical_accuracy)) ++ [acc])).length =
      ((BASELINE_INFLUENCERS.map (fun i => i.historical_accuracy)) ++ [acc]).length :=
    hperm.length_eq
  have hfield : (compare_to_baseline m acc).accuracy_percentile =
      round0 (((listIndexOf acc (List.insertionSort (fun a b => a ≤ b)
            ((BASELINE_INFLUENCERS.map (fun i => i.historical_accuracy)) ++ [acc])) : ℚ) /
          ((List.insertionSort (fun a b => a ≤ b)
            ((BASELINE_INFLUENCERS.map (fun i => i.historical_accuracy)) ++ [acc])).length : ℚ)) *
        100) := rfl
  refine ⟨by rw [hfield, hlen], ?_, ?_⟩
  · rw [hfield, hlen]
    have hsorted := List.sorted_insertionSort (fun a b : ℚ => a ≤ b)
      ((BASELINE_INFLUENCERS.map (fun i => i.historical_accuracy)) ++ [acc])
    have hmem : acc ∈ List.insertionSort (fun a b : ℚ => a ≤ b)
        ((BASELINE_INFLUENCERS.map (fun i => i.historical_accuracy)) ++ [acc]) :=
      hperm.mem_iff.mpr (by simp)
    have hidx := sorted_findIdx_eq_countP acc _ hsorted hmem
    have hcount := hperm.countP_eq (fun x => decide (x < acc))
    rw [listIndexOf, hidx, hcount]
  · have h25 : round0 (25 : ℚ) = 25 := by
      have h := round0_intCast 25; norm_num at h; exact h
    norm_num [compare_to_baseline, get_baseline_stats, BASELINE_INFLUENCERS, lowerMedian,
      listIndexOf, List.insertionSort, List.orderedInsert, List.findIdx, List.findIdx.go, h25]

end HypeAnalyser
